import Mathlib

/-!
Verification of the job resource mapping layer of the terraform-provider-nomad
repository (nomad/resource_job_v2.go).

The file shallowly embeds the encoder (configuration tree to API object
graph), the decoder (API object graph back to configuration tree with
default suppression) and the lifecycle read driver, and proves the spec
claims about them.

Modelling conventions, used throughout:
- Go machine integers are modelled as Nat or Int with the overflow bounds of
  the source made explicit where the source checks them.
- Go time.Duration is an Int counting nanoseconds.
- Pointer-typed optional values of the Nomad API object graph are modelled
  as Option; fields that the decoder dereferences unconditionally (and that
  the encoder always populates) are modelled as plain values.
- Fallible Go functions returning (T, error) are modelled with Except or
  with an explicit result-and-error pair when the source can return both a
  value and an error.
- The Go standard library functions the source calls (time.ParseDuration,
  time.Duration.String, fmt quoting) are embedded following the standard
  library algorithms, since they are part of the observable behaviour of
  the program.
-/

namespace Nomad

/-! ### Go fmt %q quoting (used by fmt.Errorf("%q is not supported", t)) -/

/-- Hex digit in lowercase, as used by Go strconv quoting. -/
def hexDigit (n : Nat) : Char :=
  if n < 10 then Char.ofNat (48 + n) else Char.ofNat (87 + n)

/-- Escape one character the way Go strconv.Quote does. Printable characters
are kept; the common control characters get their backslash escapes; other
control characters get a hexadecimal escape. Non ASCII printable characters
are kept as is (Go consults unicode.IsPrint; that distinction is not
exercised by any claim). -/
def goQuoteChar (c : Char) : String :=
  if c = '"' then "\\\""
  else if c = '\\' then "\\\\"
  else if c = Char.ofNat 7 then "\\a"
  else if c = Char.ofNat 8 then "\\b"
  else if c = Char.ofNat 12 then "\\f"
  else if c = '\n' then "\\n"
  else if c = '\r' then "\\r"
  else if c = '\t' then "\\t"
  else if c = Char.ofNat 11 then "\\v"
  else if c.toNat < 32 then
    "\\x" ++ String.mk [hexDigit (c.toNat / 16), hexDigit (c.toNat % 16)]
  else String.singleton c

/-- Go %q formatting of a string: double quotes around the escaped body. -/
def goQuote (s : String) : String :=
  "\"" ++ String.join (s.toList.map goQuoteChar) ++ "\""

/-! ### Go strings.Contains (used for the 404 check in the read driver) -/

/-- Whether pat is a prefix of s, character by character. -/
def charsHasPrefix : List Char → List Char → Bool
  | _, [] => true
  | [], _ :: _ => false
  | c :: cs, p :: ps => c == p && charsHasPrefix cs ps

/-- Whether pat occurs as a contiguous run inside s, by scanning every
suffix. -/
def charsContains : List Char → List Char → Bool
  | [], pat => charsHasPrefix [] pat
  | c :: cs, pat => charsHasPrefix (c :: cs) pat || charsContains cs pat

/-- Go strings.Contains: true when pat occurs as a substring of s. An empty
pattern is always contained. -/
def stringContains (s pat : String) : Bool :=
  charsContains s.toList pat.toList

/-! ### Go time.Duration.String -/

/-- Loop of the Go runtime fmtFrac: peels prec digits off the low end of v,
collecting them once a nonzero digit has been seen (trailing zeros of the
fraction are omitted). Returns the collected digits, whether anything is
printed, and the remaining value. -/
def fmtFracAux : Nat → Nat → Bool → List Char → (List Char × Bool × Nat)
  | v, 0, pr, acc => (acc, pr, v)
  | v, i + 1, pr, acc =>
    let digit := v % 10
    let pr' := pr || digit != 0
    let acc' := if pr' then Char.ofNat (digit + 48) :: acc else acc
    fmtFracAux (v / 10) i pr' acc'

/-- Go runtime fmtFrac: the textual fraction (with leading dot, empty when
the whole fraction is zero) and v divided by 10 to the prec. -/
def fmtFracGo (v : Nat) (prec : Nat) : String × Nat :=
  let (acc, pr, v') := fmtFracAux v prec false []
  (if pr then String.mk ('.' :: acc) else "", v')

/-- Go runtime fmtInt: plain decimal formatting of a natural number. -/
def fmtInt (v : Nat) : String := toString v

/-- Go time.Duration.String on a duration in nanoseconds. Durations under a
second use ns, microsecond or ms units with a fraction; larger durations are
rendered as [h]h[m]m[s](.frac)s, always including the seconds, this is the
formatting the decoder feeds into default comparison (for example 30 minutes
renders as "30m0s"). -/
def durationString (d : Int) : String :=
  let u := d.natAbs
  let core :=
    if u < 1000000000 then
      if u = 0 then "0s"
      else if u < 1000 then fmtInt u ++ "ns"
      else if u < 1000000 then
        let (frac, v) := fmtFracGo u 3
        fmtInt v ++ frac ++ "µs"
      else
        let (frac, v) := fmtFracGo u 6
        fmtInt v ++ frac ++ "ms"
    else
      let (frac, secs) := fmtFracGo u 9
      let sPart := fmtInt (secs % 60) ++ frac ++ "s"
      let mins := secs / 60
      if mins = 0 then sPart
      else
        let mPart := fmtInt (mins % 60) ++ "m" ++ sPart
        let hours := mins / 60
        if hours = 0 then mPart else fmtInt hours ++ "h" ++ mPart
  if d < 0 then "-" ++ core else core

/-! ### Go time.ParseDuration -/

/-- Go time leadingInt: consume leading decimal digits into x with the int64
overflow checks of the source (1 shl 63 / 10 and 1 shl 63); none signals the
errLeadingInt overflow error. -/
def leadingIntGo (x : Nat) : List Char → Option (Nat × List Char)
  | [] => some (x, [])
  | c :: rest =>
    if c.isDigit then
      if x > 922337203685477580 then none
      else
        let x' := x * 10 + (c.toNat - 48)
        if x' > 9223372036854775808 then none
        else leadingIntGo x' rest
    else some (x, c :: rest)

/-- Go time leadingFraction: consume digits after the decimal point,
tracking the scale and silently stopping accumulation on overflow. The Go
scale is a float64 power of ten; it is modelled as the same power of ten in
Nat. -/
def leadingFractionGo (x : Nat) (scale : Nat) (overflow : Bool) :
    List Char → (Nat × Nat × List Char)
  | [] => (x, scale, [])
  | c :: rest =>
    if c.isDigit then
      if overflow then leadingFractionGo x scale overflow rest
      else if x > 922337203685477580 then leadingFractionGo x scale true rest
      else
        let y := x * 10 + (c.toNat - 48)
        if y > 9223372036854775808 then leadingFractionGo x scale true rest
        else leadingFractionGo y (scale * 10) overflow rest
    else (x, scale, c :: rest)

/-- The Go time unitMap restricted to its exact contents, in nanoseconds. -/
def unitMapLookup (u : String) : Option Nat :=
  if u = "ns" then some 1
  else if u = "us" then some 1000
  else if u = "µs" then some 1000
  else if u = "μs" then some 1000
  else if u = "ms" then some 1000000
  else if u = "s" then some 1000000000
  else if u = "m" then some 60000000000
  else if u = "h" then some 3600000000000
  else none

/-- One pass of the Go ParseDuration main loop, consuming one
digits-fraction-unit segment per iteration and accumulating into d. Each
iteration consumes at least one character, so fuel equal to the length of
the remaining input plus one is always sufficient; the fuel-exhausted branch
is unreachable. The fractional contribution is computed by Go as
uint64(float64(f) * (float64(unit) / scale)); it is modelled as the exact
floor division (f * unit) / scale. -/
def parseDurationIter (orig : String) : Nat → Nat → List Char → Except String Nat
  | _, d, [] => .ok d
  | 0, _, _ :: _ => .error ("time: invalid duration " ++ goQuote orig)
  | fuel + 1, d, c :: cs =>
    if !(c == '.' || c.isDigit) then
      .error ("time: invalid duration " ++ goQuote orig)
    else
      let pl := (c :: cs).length
      match leadingIntGo 0 (c :: cs) with
      | none => .error ("time: invalid duration " ++ goQuote orig)
      | some (v, s1) =>
        let pre := pl != s1.length
        let (f, scale, s2, post) :=
          match s1 with
          | '.' :: s1' =>
            let pl2 := s1'.length
            let (f, scale, rem) := leadingFractionGo 0 1 false s1'
            (f, scale, rem, pl2 != rem.length)
          | _ => (0, 1, s1, false)
        if !pre && !post then
          .error ("time: invalid duration " ++ goQuote orig)
        else
          let uChars := s2.takeWhile (fun ch => !(ch == '.' || ch.isDigit))
          let s3 := s2.dropWhile (fun ch => !(ch == '.' || ch.isDigit))
          if uChars.length == 0 then
            .error ("time: missing unit in duration " ++ goQuote orig)
          else
            match unitMapLookup (String.mk uChars) with
            | none =>
              .error ("time: unknown unit " ++ goQuote (String.mk uChars) ++
                " in duration " ++ goQuote orig)
            | some unit =>
              if v > 9223372036854775808 / unit then
                .error ("time: invalid duration " ++ goQuote orig)
              else
                let v := v * unit
                let v := if f > 0 then v + (f * unit) / scale else v
                if v > 9223372036854775808 then
                  .error ("time: invalid duration " ++ goQuote orig)
                else
                  let d' := d + v
                  if d' > 9223372036854775808 then
                    .error ("time: invalid duration " ++ goQuote orig)
                  else parseDurationIter orig fuel d' s3

/-- Go time.ParseDuration. Returns the duration in nanoseconds together with
the optional error; as in Go, every error path carries value 0 and the
"0" shorthand parses without consulting the unit table. Go walks the string
byte by byte; walking characters is equivalent because every byte of a
multi-byte character is non ASCII and therefore lands in the unit-name scan
either way. -/
def parseDuration (s : String) : Int × Option String :=
  let orig := s
  let cs0 := s.toList
  let (neg, cs) :=
    match cs0 with
    | c :: rest => if c == '-' || c == '+' then (c == '-', rest) else (false, cs0)
    | [] => (false, cs0)
  if cs = ['0'] then ((0 : Int), none)
  else if cs = [] then ((0 : Int), some ("time: invalid duration " ++ goQuote orig))
  else
    match parseDurationIter orig (cs.length + 1) 0 cs with
    | .error e => ((0 : Int), some e)
    | .ok d =>
      if neg then (-(d : Int), none)
      else if d > 9223372036854775807 then
        ((0 : Int), some ("time: invalid duration " ++ goQuote orig))
      else ((d : Int), none)

/-! ### getDuration (resource_job_v2.go, lines 169-181) -/

/-- getDuration from the source: an empty string is "not set" with no error;
otherwise the string is parsed and a result whose Seconds() is zero is also
"not set" (forwarding any parse error). The Go test duration.Seconds() == 0
compares float64(d) / 1e9 with zero, which holds exactly when the integer
duration is zero (a nonzero int64 divided by 1e9 in float64 arithmetic is
never exactly zero), so it is modelled as d = 0. The result pair mirrors the
(*time.Duration, error) return of the source. -/
def getDuration (s : String) : Option Int × Option String :=
  if s = "" then (none, none)
  else
    let (duration, err) := parseDuration s
    if duration = 0 then (none, err)
    else (some duration, err)

/-! ### JSON values and Go json.Marshal

Free-form config blobs are map[string]interface 0-ary values in the API
graph; they are modelled by a first-order JSON value type. Numbers are
modelled as integers (the claims never exercise fractional JSON numbers).
Go json.Marshal sorts map keys and escapes the HTML characters by default;
json.Marshal can only fail on values that have no JSON representation,
which cannot be constructed in this value type, so marshalling is total
here and the corresponding Go error branches are dead. -/

inductive Json where
  | null : Json
  | bool (b : Bool) : Json
  | num (n : Int) : Json
  | str (s : String) : Json
  | arr (xs : List Json) : Json
  | obj (fields : List (String × Json)) : Json

/-- JSON string escaping as Go encoding/json does with HTML escaping on:
quote, backslash, newline, carriage return, tab get short escapes, other
control characters and the HTML characters get u-escapes. -/
def jsonEscapeChar (c : Char) : String :=
  if c = '"' then "\\\""
  else if c = '\\' then "\\\\"
  else if c = '\n' then "\\n"
  else if c = '\r' then "\\r"
  else if c = '\t' then "\\t"
  else if c = '<' then "\\u003c"
  else if c = '>' then "\\u003e"
  else if c = '&' then "\\u0026"
  else if c.toNat < 32 then
    "\\u00" ++ String.mk [hexDigit (c.toNat / 16), hexDigit (c.toNat % 16)]
  else String.singleton c

/-- Rendered JSON string literal. -/
def jsonString (s : String) : String :=
  "\"" ++ String.join (s.toList.map jsonEscapeChar) ++ "\""

/-- Insert one rendered object field into a key-sorted list. -/
def insertPair (p : String × String) : List (String × String) → List (String × String)
  | [] => [p]
  | q :: rest => if p.1 ≤ q.1 then p :: q :: rest else q :: insertPair p rest

/-- Insertion sort of rendered object fields by key, matching the sorted
key order of Go json.Marshal on maps. -/
def sortPairs : List (String × String) → List (String × String)
  | [] => []
  | p :: rest => insertPair p (sortPairs rest)

/-- Comma-joined rendering. -/
def joinComma : List String → String
  | [] => ""
  | [x] => x
  | x :: y :: rest => x ++ "," ++ joinComma (y :: rest)

mutual

/-- Go json.Marshal on the JSON value type, compact form, map keys sorted. -/
def jsonMarshal : Json → String
  | .null => "null"
  | .bool true => "true"
  | .bool false => "false"
  | .num n => toString n
  | .str s => jsonString s
  | .arr xs => "[" ++ joinComma (jsonMarshalList xs) ++ "]"
  | .obj fields =>
    let rendered := sortPairs (jsonMarshalObj fields)
    "\x7b" ++ joinComma (rendered.map (fun kv => jsonString kv.1 ++ ":" ++ kv.2)) ++ "\x7d"

/-- Rendered elements of a JSON array. -/
def jsonMarshalList : List Json → List String
  | [] => []
  | x :: rest => jsonMarshal x :: jsonMarshalList rest

/-- Object fields with rendered values, in source order (sorted afterwards). -/
def jsonMarshalObj : List (String × Json) → List (String × String)
  | [] => []
  | (k, v) :: rest => (k, jsonMarshal v) :: jsonMarshalObj rest

end

/-! ### The API object graph (github.com/hashicorp/nomad/api shapes)

Only the fields the source reads or writes are modelled. String maps are
association lists. Numeric field widths (int, int8, uint8, uint64) are
modelled as Int with the casts of the source made explicit. -/

/-- api.Constraint: LTarget, Operand and RTarget are the fields the source
touches. -/
structure Constraint where
  lTarget : String
  operand : String
  rTarget : String
deriving DecidableEq

/-- api.NewConstraint, the external constructor used by the encoder. -/
def NewConstraint (attr operator value : String) : Constraint :=
  { lTarget := attr, operand := operator, rTarget := value }

/-- api.Affinity; weight is an int8 in the API (written through a pointer,
modelled plain since both sides populate it). -/
structure Affinity where
  lTarget : String
  operand : String
  rTarget : String
  weight : Int
deriving DecidableEq

/-- api.NewAffinity, the external constructor used by the encoder. -/
def NewAffinity (attr operator value : String) (weight : Int) : Affinity :=
  { lTarget := attr, operand := operator, rTarget := value, weight := weight }

/-- api.SpreadTarget; percent is a uint8 in the API. -/
structure SpreadTarget where
  value : String
  percent : Int
deriving DecidableEq

/-- api.Spread; weight is an int8 behind a pointer in the API. -/
structure Spread where
  attr : String
  weight : Int
  spreadTarget : List SpreadTarget
deriving DecidableEq

/-- api.NewSpread, the external constructor used by the encoder. -/
def NewSpread (attr : String) (weight : Int) (targets : List SpreadTarget) : Spread :=
  { attr := attr, weight := weight, spreadTarget := targets }

/-- api.DNSConfig with its three string list fields. -/
structure ApiDNSConfig where
  servers : List String
  searches : List String
  options : List String
deriving DecidableEq

/-- api.NetworkResource, restricted to the fields the source touches (the
source carries a TODO for ports). MBits is always populated by the encoder
and dereferenced by the decoder, so it is plain. -/
structure NetworkResource where
  mode : String
  mbits : Int
  dns : Option ApiDNSConfig
deriving DecidableEq

/-- api.EphemeralDisk; the decoder dereferences all three pointer fields
unconditionally, so they are plain. -/
structure EphemeralDisk where
  sticky : Bool
  migrate : Bool
  sizeMB : Int
deriving DecidableEq

/-- api.RestartPolicy; all four fields are dereferenced unconditionally by
the decoder (delay and interval are durations in nanoseconds). -/
structure RestartPolicy where
  attempts : Int
  delay : Int
  interval : Int
  mode : String
deriving DecidableEq

/-- api.ReschedulePolicy, fields dereferenced unconditionally. -/
structure ReschedulePolicy where
  attempts : Int
  interval : Int
  delay : Int
  maxDelay : Int
  delayFunction : String
  unlimited : Bool
deriving DecidableEq

/-- api.MigrateStrategy, fields dereferenced unconditionally. -/
structure MigrateStrategy where
  maxParallel : Int
  healthCheck : String
  minHealthyTime : Int
  healthyDeadline : Int
deriving DecidableEq

/-- api.UpdateStrategy, fields dereferenced unconditionally. -/
structure UpdateStrategy where
  maxParallel : Int
  healthCheck : String
  canary : Int
  autoRevert : Bool
  autoPromote : Bool
  stagger : Int
  minHealthyTime : Int
  healthyDeadline : Int
  progressDeadline : Int
deriving DecidableEq

/-- api.VolumeRequest (typ stands for the type attribute). -/
structure VolumeRequest where
  name : String
  typ : String
  source : String
  readOnly : Bool
deriving DecidableEq

/-- api.CheckRestart; grace is a duration pointer and the decoder copies the
pointer itself into the configuration map, so it stays optional. -/
structure CheckRestart where
  limit : Int
  grace : Option Int
  ignoreWarnings : Bool
deriving DecidableEq

/-- api.ServiceCheck with the fields the source maps (typ stands for the
type attribute; interval and timeout are plain durations in the API). -/
structure ServiceCheck where
  addressMode : String
  args : List String
  command : String
  grpcService : String
  grpcUseTLS : Bool
  initialStatus : String
  successBeforePassing : Int
  failuresBeforeCritical : Int
  method : String
  name : String
  path : String
  expose : Bool
  portLabel : String
  protocol : String
  taskName : String
  typ : String
  tlsSkipVerify : Bool
  checkRestart : Option CheckRestart
  timeout : Int
  interval : Int
deriving DecidableEq

/-- api.ConsulUpstream. -/
structure ConsulUpstream where
  destinationName : String
  localBindPort : Int
deriving DecidableEq

/-- api.ConsulExposePath. -/
structure ConsulExposePath where
  path : String
  protocol : String
  localPathPort : Int
  listenerPort : String
deriving DecidableEq

/-- api.ConsulExposeConfig. -/
structure ConsulExposeConfig where
  path : List ConsulExposePath
deriving DecidableEq

/-- api.ConsulProxy. -/
structure ConsulProxy where
  localServiceAddress : String
  localServicePort : Int
  exposeConfig : Option ConsulExposeConfig
  upstreams : List ConsulUpstream
  config : Json

/-- api.ConsulSidecarService. -/
structure ConsulSidecarService where
  tags : List String
  port : String
  proxy : Option ConsulProxy

/-- api.LogConfig, fields dereferenced unconditionally by the decoder. -/
structure LogConfig where
  maxFiles : Int
  maxFileSizeMB : Int
deriving DecidableEq

/-- api.RequestedDevice; count is a uint64 pointer that the decoder copies
as is. -/
structure RequestedDevice where
  name : String
  count : Option Int
  constraints : List Constraint
  affinities : List Affinity
deriving DecidableEq

/-- api.Resources, restricted to the fields the source maps. -/
structure Resources where
  cpu : Int
  memoryMB : Int
  networks : List NetworkResource
  devices : List RequestedDevice
deriving DecidableEq

/-- api.SidecarTask. The decoder never reads any of these fields (the
sidecar_task attribute is hardcoded to nil), they are listed for the shape
of the graph only. -/
structure SidecarTask where
  name : String
  driver : String
  user : String
  config : Json
  env : List (String × String)
  meta : List (String × String)
  killSignal : String
  resources : Option Resources
  logConfig : Option LogConfig
  killTimeout : Option Int
  shutdownDelay : Option Int

/-- api.ConsulConnect. -/
structure ConsulConnect where
  native : Bool
  sidecarService : Option ConsulSidecarService
  sidecarTask : Option SidecarTask

/-- api.Service with the fields the source maps. -/
structure Service where
  meta : List (String × String)
  name : String
  portLabel : String
  tags : List String
  canaryTags : List String
  enableTagOverride : Bool
  addressMode : String
  taskName : String
  checks : List ServiceCheck
  connect : Option ConsulConnect
  canaryMeta : List (String × String)

/-- api.TaskArtifact; the getter fields are string pointers populated by
getString so they stay optional, the decoder copies the pointers. -/
structure TaskArtifact where
  getterSource : Option String
  getterOptions : List (String × String)
  getterMode : Option String
  relativeDest : Option String
deriving DecidableEq

/-- api.DispatchPayloadConfig. -/
structure DispatchPayloadConfig where
  file : String
deriving DecidableEq

/-- api.TaskLifecycle. -/
structure TaskLifecycle where
  hook : String
  sidecar : Bool
deriving DecidableEq

/-- api.Template; the string and bool fields are pointers copied as is by
the decoder, splay and vault grace are duration pointers rendered with
String() (hence modelled plain, a nil there would crash the decoder). -/
structure Template where
  changeMode : Option String
  changeSignal : Option String
  embeddedTmpl : Option String
  destPath : Option String
  envvars : Option Bool
  leftDelim : Option String
  perms : Option String
  rightDelim : Option String
  sourcePath : Option String
  splay : Int
  vaultGrace : Int
deriving DecidableEq

/-- api.VolumeMount, pointer fields copied as is by the decoder. -/
structure VolumeMount where
  volume : Option String
  destination : Option String
  readOnly : Option Bool
deriving DecidableEq

/-- api.Vault, pointer fields copied as is by the decoder. -/
structure Vault where
  policies : List String
  ns : Option String
  env : Option Bool
  changeMode : Option String
  changeSignal : Option String
deriving DecidableEq

/-- api.Task with the fields the source maps; kill timeout is rendered with
String() by the decoder (modelled plain), shutdown delay is a plain
duration in the API struct. -/
structure Task where
  name : String
  config : Json
  meta : List (String × String)
  driver : String
  killSignal : String
  leader : Bool
  user : String
  kind : String
  artifacts : List TaskArtifact
  constraints : List Constraint
  affinities : List Affinity
  dispatchPayload : Option DispatchPayloadConfig
  env : List (String × String)
  lifecycle : Option TaskLifecycle
  logConfig : Option LogConfig
  resources : Option Resources
  services : List Service
  templates : List Template
  vault : Option Vault
  volumeMounts : List VolumeMount
  killTimeout : Int
  shutdownDelay : Int

/-- api.TaskGroup with the fields the source maps. Volumes is a Go map from
name to request, modelled as an association list iterated in list order
(the Go map iteration order is arbitrary; no claim depends on it). -/
structure TaskGroup where
  name : String
  meta : List (String × String)
  count : Int
  constraints : List Constraint
  affinities : List Affinity
  spreads : List Spread
  ephemeralDisk : Option EphemeralDisk
  migrate : Option MigrateStrategy
  networks : List NetworkResource
  reschedulePolicy : Option ReschedulePolicy
  restartPolicy : Option RestartPolicy
  services : List Service
  tasks : List Task
  volumes : List (String × VolumeRequest)
  shutdownDelay : Option Int
  stopAfterClientDisconnect : Option Int

/-- api.ParameterizedJobConfig. -/
structure ParameterizedJobConfig where
  payload : String
  metaRequired : List String
  metaOptional : List String
deriving DecidableEq

/-- api.PeriodicConfig, restricted to the fields the read path consumes. -/
structure PeriodicConfig where
  spec : String
  prohibitOverlap : Bool
  timeZone : String
deriving DecidableEq

/-- api.Job with the fields the read path consumes (ns stands for the
namespace attribute). -/
structure Job where
  ns : String
  priority : Int
  typ : String
  region : String
  meta : List (String × String)
  allAtOnce : Bool
  datacenters : List String
  name : String
  constraints : List Constraint
  affinities : List Affinity
  spreads : List Spread
  taskGroups : List TaskGroup
  parameterizedJob : Option ParameterizedJobConfig
  periodic : Option PeriodicConfig
  update : Option UpdateStrategy

/-! ### The configuration tree (schema shapes the source reads)

Blocks are records of scalar fields and nested block sequences, exactly the
keys the source accesses with type assertions. -/

/-- A constraint block of the configuration tree; also the shape the
decoder produces for one decoded constraint. -/
structure ConstraintConfig where
  attr : String
  operator : String
  value : String
deriving DecidableEq

/-- An affinity block; also the decoded shape. -/
structure AffinityConfig where
  attr : String
  operator : String
  value : String
  weight : Int
deriving DecidableEq

/-- A spread target block; also the decoded shape. -/
structure SpreadTargetConfig where
  value : String
  percent : Int
deriving DecidableEq

/-- A spread block; also the decoded shape. -/
structure SpreadConfig where
  attr : String
  weight : Int
  target : List SpreadTargetConfig
deriving DecidableEq

/-- A dns block inside a network block. -/
structure DnsConfig where
  servers : List String
  searches : List String
  options : List String
deriving DecidableEq

/-- A network block (the source reads mode, mbits and the dns blocks and
carries a TODO for ports). -/
structure NetworkConfig where
  mode : String
  mbits : Int
  dns : List DnsConfig
deriving DecidableEq

/-- An ephemeral_disk block of prior state (only its presence matters to
the decoder). -/
structure EphemeralDiskConfig where
  sticky : Bool
  migrate : Bool
  size : Int
deriving DecidableEq

/-- A restart block of prior state. -/
structure RestartConfig where
  attempts : Int
  delay : String
  interval : String
  mode : String
deriving DecidableEq

/-- A reschedule block of prior state. -/
structure RescheduleConfig where
  attempts : Int
  interval : String
  delay : String
  delayFunction : String
  maxDelay : String
  unlimited : Bool
deriving DecidableEq

/-- A migrate block of prior state. -/
structure MigrateConfig where
  maxParallel : Int
  healthCheck : String
  minHealthyTime : String
  healthyDeadline : String
deriving DecidableEq

/-- An update block of prior state. -/
structure UpdateConfig where
  maxParallel : Int
  healthCheck : String
  canary : Int
  autoRevert : Bool
  autoPromote : Bool
  stagger : String
  minHealthyTime : String
  healthyDeadline : String
  progressDeadline : String
deriving DecidableEq

/-- A group block of prior state, restricted to the sub-blocks whose
presence the decoder consults (ephemeral_disk, restart, reschedule,
migrate); the remaining schema fields are never read by the decode path. -/
structure GroupConfig where
  ephemeralDisk : List EphemeralDiskConfig
  restart : List RestartConfig
  reschedule : List RescheduleConfig
  migrate : List MigrateConfig
deriving DecidableEq

/-- The prior resource data handle, restricted to the fields the decode
path consults: the identity, the type attribute, the prior update blocks
and the prior group blocks. -/
structure ResourceData where
  id : String
  jobType : String
  update : List UpdateConfig
  group : List GroupConfig
deriving DecidableEq

/-! ### Encoder helpers (resource_job_v2.go, lines 257-323 and 671-706) -/

/-- Go int8 conversion: truncation to the signed 8 bit range. -/
def int8cast (n : Int) : Int := (n + 128) % 256 - 128

/-- Go uint8 conversion: truncation to the unsigned 8 bit range. -/
def uint8cast (n : Int) : Int := n % 256

/-- getConstraints from the source: each constraint block becomes an API
constraint through api.NewConstraint. -/
def getConstraints (d : List ConstraintConfig) : List Constraint :=
  d.map (fun c => NewConstraint c.attr c.operator c.value)

/-- getAffinities from the source: each affinity block becomes an API
affinity through api.NewAffinity, with the int8 conversion of the weight. -/
def getAffinities (d : List AffinityConfig) : List Affinity :=
  d.map (fun a => NewAffinity a.attr a.operator a.value (int8cast a.weight))

/-- getSpreads from the source. The source builds the spreads slice,
appending one api.NewSpread per block with its converted targets, and then
returns nil instead of the built slice; the built list is bound and
discarded here exactly as the source discards it. -/
def getSpreads (d : List SpreadConfig) : List Spread :=
  let _spreads := d.foldl
    (fun acc s =>
      let targets := s.target.foldl
        (fun ts t => ts ++ [{ value := t.value, percent := uint8cast t.percent : SpreadTarget }]) []
      acc ++ [NewSpread s.attr (int8cast s.weight) targets])
    []
  []

/-- The body of the getNetworks loop for one network block. The dns loop of
the source allocates a fresh api.DNSConfig per dns block and then, for each
of servers, searches and options, assigns append(emptySlice, element) to
the field on every iteration: the field ends as a singleton holding the
last element, or keeps the zero value when the configured list is empty. -/
def getNetwork1 (n : NetworkConfig) : NetworkResource :=
  let network : NetworkResource := { mode := n.mode, mbits := n.mbits, dns := none }
  n.dns.foldl
    (fun network d =>
      let dns0 : ApiDNSConfig := { servers := [], searches := [], options := [] }
      let servers : List String := []
      let sv := d.servers.foldl (fun _cur s => servers ++ [s]) dns0.servers
      let searches : List String := []
      let se := d.searches.foldl (fun _cur s => searches ++ [s]) dns0.searches
      let options : List String := []
      let op := d.options.foldl (fun _cur s => options ++ [s]) dns0.options
      { network with dns := some { servers := sv, searches := se, options := op } })
    network

/-- getNetworks from the source: the append loop over network blocks. -/
def getNetworks (d : List NetworkConfig) : List NetworkResource :=
  d.map getNetwork1

/-! ### Decoder outcome type

The decoder returns (interface value, error) pairs in the source; errors
are modelled with Except. The source additionally contains one direct index
into the prior group configuration (readGroups, line 1058) that panics at
runtime when out of range; that runtime panic is modelled as a
distinguished error constructor so that it can be told apart from the
ordinary error returns. -/

inductive DecodeErr where
  | err (msg : String)
  | indexOutOfRange (msg : String)
deriving DecidableEq

/-! Every fallible reader of the source returns a plain Go error (a
message); DecodeErr.err tags those messages, DecodeErr.indexOutOfRange tags
the one runtime panic, and only readGroups and the read driver carry the
combined type. -/

/-! ### Decoded attribute shapes (the maps the readers build) -/

/-- The map built for one decoded ephemeral_disk block. -/
structure EphemeralDiskAttrs where
  migrate : Bool
  size : Int
  sticky : Bool
deriving DecidableEq

/-- The map built for one decoded restart block. -/
structure RestartAttrs where
  attempts : Int
  delay : String
  interval : String
  mode : String
deriving DecidableEq

/-- The map built for one decoded volume block. -/
structure VolumeAttrs where
  name : String
  typ : String
  source : String
  readOnly : Bool
deriving DecidableEq

/-- The map built for one decoded migrate block. -/
structure MigrateAttrs where
  maxParallel : Int
  healthCheck : String
  minHealthyTime : String
  healthyDeadline : String
deriving DecidableEq

/-- The map built for one decoded reschedule block. -/
structure RescheduleAttrs where
  attempts : Int
  interval : String
  delay : String
  delayFunction : String
  maxDelay : String
  unlimited : Bool
deriving DecidableEq

/-- The map built for one decoded update block. -/
structure UpdateAttrs where
  maxParallel : Int
  healthCheck : String
  minHealthyTime : String
  healthyDeadline : String
  progressDeadline : String
  autoRevert : Bool
  autoPromote : Bool
  canary : Int
  stagger : String
deriving DecidableEq

/-- The map built for one decoded dns block. -/
structure DNSAttrs where
  servers : List String
  searches : List String
  options : List String
deriving DecidableEq

/-- The map built for one decoded network block; the port key is written as
a one-element list holding nil in the source (a placeholder marked TODO). -/
structure NetworkAttrs where
  mbits : Int
  mode : String
  port : List (Option Unit)
  dns : List DNSAttrs
deriving DecidableEq

/-- The map built for one decoded check_restart block; grace is copied as
the duration pointer itself. -/
structure CheckRestartAttrs where
  limit : Int
  grace : Option Int
  ignoreWarnings : Bool
deriving DecidableEq

/-- The map built for one decoded check block. -/
structure CheckAttrs where
  addressMode : String
  args : List String
  command : String
  grpcService : String
  grpcUseTLS : Bool
  initialStatus : String
  successBeforePassing : Int
  failuresBeforeCritical : Int
  interval : String
  method : String
  name : String
  path : String
  expose : Bool
  port : String
  protocol : String
  task : String
  timeout : String
  typ : String
  tlsSkipVerify : Bool
  checkRestart : List CheckRestartAttrs
deriving DecidableEq

/-- The map built for one decoded upstreams block. -/
structure UpstreamAttrs where
  destinationName : String
  localBindPort : Int
deriving DecidableEq

/-- The map built for one decoded expose path block. -/
structure ExposePathAttrs where
  path : String
  protocol : String
  localPathPort : Int
  listenerPort : String
deriving DecidableEq

/-- The map built for one decoded expose block. -/
structure ExposeAttrs where
  path : List ExposePathAttrs
deriving DecidableEq

/-- The map built for one decoded proxy block (config is the marshalled
JSON text). -/
structure ProxyAttrs where
  localServiceAddress : String
  localServicePort : Int
  config : String
  upstreams : List UpstreamAttrs
  expose : List ExposeAttrs
deriving DecidableEq

/-- The map built for one decoded sidecar_service block. -/
structure SidecarServiceAttrs where
  tags : List String
  port : String
  proxy : List ProxyAttrs
deriving DecidableEq

/-- The shape a decoded sidecar_task block would have under the schema. The
decoder never constructs one: the sidecar_task key is hardcoded to nil in
the source, so this type only gives the nil a type. -/
structure SidecarTaskAttrs where
  name : String
  driver : String
  config : String
deriving DecidableEq

/-- The map built for one decoded connect block. -/
structure ConnectAttrs where
  native : Bool
  sidecarService : List SidecarServiceAttrs
  sidecarTask : Option SidecarTaskAttrs
deriving DecidableEq

/-- The map built for one decoded service block. -/
structure ServiceAttrs where
  meta : List (String × String)
  name : String
  port : String
  tags : List String
  canaryTags : List String
  enableTagOverride : Bool
  addressMode : String
  task : String
  check : List CheckAttrs
  connect : List ConnectAttrs
  canaryMeta : List (String × String)
deriving DecidableEq

/-- The map built for one decoded artifact block (pointer fields copied). -/
structure ArtifactAttrs where
  destination : Option String
  mode : Option String
  options : List (String × String)
  source : Option String
deriving DecidableEq

/-- The map built for one decoded dispatch_payload block. -/
structure DispatchPayloadAttrs where
  file : String
deriving DecidableEq

/-- The map built for one decoded lifecycle block. -/
structure LifecycleAttrs where
  hook : String
  sidecar : Bool
deriving DecidableEq

/-- The map built for one decoded template block. -/
structure TemplateAttrs where
  changeMode : Option String
  changeSignal : Option String
  data : Option String
  destination : Option String
  env : Option Bool
  leftDelimiter : Option String
  perms : Option String
  rightDelimiter : Option String
  source : Option String
  splay : String
  vaultGrace : String
deriving DecidableEq

/-- The map built for one decoded volume_mount block. -/
structure VolumeMountAttrs where
  volume : Option String
  destination : Option String
  readOnly : Option Bool
deriving DecidableEq

/-- The map built for one decoded logs block. -/
structure LogsAttrs where
  maxFiles : Int
  maxFileSize : Int
deriving DecidableEq

/-- The map built for one decoded device block. -/
structure DeviceAttrs where
  name : String
  count : Option Int
  constraint : List ConstraintConfig
  affinity : List AffinityConfig
deriving DecidableEq

/-- The map built for one decoded resources block. -/
structure ResourcesAttrs where
  cpu : Int
  memory : Int
  device : List DeviceAttrs
  network : List NetworkAttrs
deriving DecidableEq

/-- The map built for one decoded vault block (pointer fields copied; ns
stands for the namespace attribute). -/
structure VaultAttrs where
  changeMode : Option String
  changeSignal : Option String
  env : Option Bool
  ns : Option String
  policies : List String
deriving DecidableEq

/-- The map built for one decoded task block. -/
structure TaskAttrs where
  name : String
  config : String
  env : List (String × String)
  meta : List (String × String)
  driver : String
  killTimeout : String
  killSignal : String
  leader : Bool
  shutdownDelay : String
  user : String
  kind : String
  artifact : List ArtifactAttrs
  constraint : List ConstraintConfig
  affinity : List AffinityConfig
  dispatchPayload : List DispatchPayloadAttrs
  lifecycle : List LifecycleAttrs
  logs : Option (List LogsAttrs)
  resources : Option (List ResourcesAttrs)
  service : List ServiceAttrs
  template : List TemplateAttrs
  vault : Option (List VaultAttrs)
  volumeMount : List VolumeMountAttrs
deriving DecidableEq

/-- The map built for one decoded group block; shutdown_delay and
stop_after_client_disconnect are only written when the API values are
non-nil, hence optional. -/
structure GroupAttrs where
  name : String
  meta : List (String × String)
  count : Int
  constraint : List ConstraintConfig
  affinity : List AffinityConfig
  spread : List SpreadConfig
  ephemeralDisk : List EphemeralDiskAttrs
  migrate : Option (List MigrateAttrs)
  network : List NetworkAttrs
  reschedule : Option (List RescheduleAttrs)
  restart : List RestartAttrs
  service : List ServiceAttrs
  task : List TaskAttrs
  volume : List VolumeAttrs
  shutdownDelay : Option String
  stopAfterClientDisconnect : Option String
deriving DecidableEq

/-- The map built for one decoded parameterized block. -/
structure ParameterizedAttrs where
  metaOptional : List String
  metaRequired : List String
  payload : String
deriving DecidableEq

/-- The map built for one decoded periodic block. -/
structure PeriodicAttrs where
  cron : String
  prohibitOverlap : Bool
  timeZone : String
deriving DecidableEq

/-- The state written by a successful read (one Set call per field; ns
stands for the namespace attribute). -/
structure JobAttrs where
  ns : String
  priority : Int
  typ : String
  region : String
  meta : List (String × String)
  allAtOnce : Bool
  datacenters : List String
  name : String
  constraint : List ConstraintConfig
  affinity : List AffinityConfig
  spread : List SpreadConfig
  group : List GroupAttrs
  parameterized : List ParameterizedAttrs
  periodic : List PeriodicAttrs
  update : Option (List UpdateAttrs)
deriving DecidableEq

/-! ### Readers (resource_job_v2.go, lines 988-1656) -/

/-- readConstraints from the source. -/
def readConstraints (constraints : List Constraint) : List ConstraintConfig :=
  constraints.map (fun cn =>
    { attr := cn.lTarget, operator := cn.operand, value := cn.rTarget })

/-- readAffinities from the source. -/
def readAffinities (affinities : List Affinity) : List AffinityConfig :=
  affinities.map (fun af =>
    { attr := af.lTarget, operator := af.operand, value := af.rTarget, weight := af.weight })

/-- readSpreads from the source. -/
def readSpreads (spreads : List Spread) : List SpreadConfig :=
  spreads.map (fun s =>
    { attr := s.attr
      weight := s.weight
      target := s.spreadTarget.map (fun t => { value := t.value, percent := t.percent }) })

/-- readMigrate from the source: nil stays nil, otherwise the block is
rendered and suppressed when the user did not set it and it equals the
(type independent) default. -/
def readMigrate (isSet : Bool) (migrate : Option MigrateStrategy) :
    Option (List MigrateAttrs) :=
  match migrate with
  | none => none
  | some m =>
    let res : MigrateAttrs :=
      { maxParallel := m.maxParallel
        healthCheck := m.healthCheck
        minHealthyTime := durationString m.minHealthyTime
        healthyDeadline := durationString m.healthyDeadline }
    let defaultValue : MigrateAttrs :=
      { maxParallel := 1, healthCheck := "checks"
        minHealthyTime := "10s", healthyDeadline := "5m0s" }
    if isSet = false ∧ res = defaultValue then none else some [res]

/-- readReschedule from the source. The default depends on the job type;
for a system job the source compares against an empty literal map, which is
never DeepEqual to the populated res map, modelled by an absent default.
An unsupported type is the fatal error of line 1251. -/
def readReschedule (d : ResourceData) (isSet : Bool)
    (reschedule : Option ReschedulePolicy) :
    Except String (Option (List RescheduleAttrs)) :=
  match reschedule with
  | none => .ok none
  | some r =>
    let res : RescheduleAttrs :=
      { attempts := r.attempts
        interval := durationString r.interval
        delay := durationString r.delay
        delayFunction := r.delayFunction
        maxDelay := durationString r.maxDelay
        unlimited := r.unlimited }
    let t := d.jobType
    let dv : Except String (Option RescheduleAttrs) :=
      if t = "service" then
        .ok (some { attempts := 0, interval := "0s", delay := "30s"
                    delayFunction := "exponential", maxDelay := "1h0m0s"
                    unlimited := true })
      else if t = "batch" then
        .ok (some { attempts := 1, interval := "24h0m0s", delay := "5s"
                    delayFunction := "constant", maxDelay := "0s"
                    unlimited := false })
      else if t = "system" then
        .ok none
      else
        .error (goQuote t ++ " is not supported")
    match dv with
    | .error e => .error e
    | .ok defaultValue =>
      if isSet = false ∧ some res = defaultValue then .ok none
      else .ok (some [res])

/-- readUpdate from the source; isSet comes from the prior update blocks of
the resource data, the default depends on the job type, and an unsupported
type is the fatal error of line 1308. -/
def readUpdate (d : ResourceData) (update : Option UpdateStrategy) :
    Except String (Option (List UpdateAttrs)) :=
  match update with
  | none => .ok none
  | some u =>
    let res : UpdateAttrs :=
      { maxParallel := u.maxParallel
        healthCheck := u.healthCheck
        minHealthyTime := durationString u.minHealthyTime
        healthyDeadline := durationString u.healthyDeadline
        progressDeadline := durationString u.progressDeadline
        autoRevert := u.autoRevert
        autoPromote := u.autoPromote
        canary := u.canary
        stagger := durationString u.stagger }
    let t := d.jobType
    let dv : Except String UpdateAttrs :=
      if t = "service" then
        .ok { maxParallel := 1, healthCheck := "", minHealthyTime := "0s"
              healthyDeadline := "0s", progressDeadline := "0s"
              autoRevert := false, autoPromote := false, canary := 0
              stagger := "30s" }
      else if t = "batch" ∨ t = "system" then
        .ok { maxParallel := 0, healthCheck := "", minHealthyTime := "0s"
              healthyDeadline := "0s", progressDeadline := "0s"
              autoRevert := false, autoPromote := false, canary := 0
              stagger := "0s" }
      else
        .error (goQuote t ++ " is not supported")
    match dv with
    | .error e => .error e
    | .ok defaultValue =>
      let isSet := d.update.length > 0
      if isSet = false ∧ res = defaultValue then .ok none
      else .ok (some [res])

/-- The body of the readNetworks loop for one API network. -/
def readNetwork1 (n : NetworkResource) : NetworkAttrs :=
  let dns : List DNSAttrs :=
    match n.dns with
    | none => []
    | some dc => [{ servers := dc.servers, searches := dc.searches, options := dc.options }]
  { mbits := n.mbits, mode := n.mode, port := [none], dns := dns }

/-- readNetworks from the source. -/
def readNetworks (networks : List NetworkResource) : List NetworkAttrs :=
  networks.map readNetwork1

/-- The body of the check loop of readServices for one API check. -/
def readCheck1 (ck : ServiceCheck) : CheckAttrs :=
  let checkRestart : List CheckRestartAttrs :=
    match ck.checkRestart with
    | none => []
    | some cr => [{ limit := cr.limit, grace := cr.grace, ignoreWarnings := cr.ignoreWarnings }]
  { addressMode := ck.addressMode
    args := ck.args
    command := ck.command
    grpcService := ck.grpcService
    grpcUseTLS := ck.grpcUseTLS
    initialStatus := ck.initialStatus
    successBeforePassing := ck.successBeforePassing
    failuresBeforeCritical := ck.failuresBeforeCritical
    interval := durationString ck.interval
    method := ck.method
    name := ck.name
    path := ck.path
    expose := ck.expose
    port := ck.portLabel
    protocol := ck.protocol
    task := ck.taskName
    timeout := durationString ck.timeout
    typ := ck.typ
    tlsSkipVerify := ck.tlsSkipVerify
    checkRestart := checkRestart }

/-- The body of the readServices loop for one API service. The connect
block is decoded with its sidecar service and proxy, while the
sidecar_task key is hardcoded to nil (line 1451 of the source). -/
def readService1 (sv : Service) : ServiceAttrs :=
  let checks := sv.checks.map readCheck1
  let connect : List ConnectAttrs :=
    match sv.connect with
    | none => []
    | some cn =>
      let sidecarService : List SidecarServiceAttrs :=
        match cn.sidecarService with
        | none => []
        | some ss =>
          let proxy : List ProxyAttrs :=
            match ss.proxy with
            | none => []
            | some p =>
              let config := jsonMarshal p.config
              let upstreams := p.upstreams.map (fun up =>
                { destinationName := up.destinationName
                  localBindPort := up.localBindPort : UpstreamAttrs })
              let expose : List ExposeAttrs :=
                match p.exposeConfig with
                | none => []
                | some ec =>
                  [{ path := ec.path.map (fun pa =>
                      { path := pa.path, protocol := pa.protocol
                        localPathPort := pa.localPathPort
                        listenerPort := pa.listenerPort }) }]
              [{ localServiceAddress := p.localServiceAddress
                 localServicePort := p.localServicePort
                 config := config
                 upstreams := upstreams
                 expose := expose }]
          [{ tags := ss.tags, port := ss.port, proxy := proxy }]
      [{ native := cn.native, sidecarService := sidecarService, sidecarTask := none }]
  { meta := sv.meta
    name := sv.name
    port := sv.portLabel
    tags := sv.tags
    canaryTags := sv.canaryTags
    enableTagOverride := sv.enableTagOverride
    addressMode := sv.addressMode
    task := sv.taskName
    check := checks
    connect := connect
    canaryMeta := sv.canaryMeta }

/-- readServices from the source. The only Go error path is json.Marshal of
the proxy config, which is total on the JSON value type, so the reader is
total here. -/
def readServices (services : List Service) : List ServiceAttrs :=
  services.map readService1

/-- readLogs from the source: note the suppression consults only the
default equality, never the prior configuration. -/
def readLogs (logs : Option LogConfig) : Option (List LogsAttrs) :=
  match logs with
  | none => none
  | some lg =>
    let res : LogsAttrs := { maxFiles := lg.maxFiles, maxFileSize := lg.maxFileSizeMB }
    let defaultValue : LogsAttrs := { maxFiles := 10, maxFileSize := 10 }
    if res = defaultValue then none else some [res]

/-- readResources from the source: like readLogs the suppression consults
only the default equality (empty devices, empty networks, cpu 100 and
memory 300), never the prior configuration. -/
def readResources (resources : Option Resources) : Option (List ResourcesAttrs) :=
  match resources with
  | none => none
  | some r =>
    let devices := r.devices.map (fun dev =>
      { name := dev.name
        count := dev.count
        constraint := readConstraints dev.constraints
        affinity := readAffinities dev.affinities : DeviceAttrs })
    let res : ResourcesAttrs :=
      { cpu := r.cpu, memory := r.memoryMB
        device := devices, network := readNetworks r.networks }
    let defaultValue : ResourcesAttrs :=
      { cpu := 100, memory := 300, device := [], network := [] }
    if res = defaultValue then none else some [res]

/-- readVault from the source. -/
def readVault (vault : Option Vault) : Option (List VaultAttrs) :=
  match vault with
  | none => none
  | some v =>
    some [{ changeMode := v.changeMode
            changeSignal := v.changeSignal
            env := v.env
            ns := v.ns
            policies := v.policies }]

/-- The body of the readTasks loop for one API task; json.Marshal of the
task config is total on the JSON value type. -/
def readTask1 (t : Task) : TaskAttrs :=
  let config := jsonMarshal t.config
  let artifacts := t.artifacts.map (fun a =>
    { destination := a.relativeDest
      mode := a.getterMode
      options := a.getterOptions
      source := a.getterSource : ArtifactAttrs })
  let dispatchPayload : List DispatchPayloadAttrs :=
    match t.dispatchPayload with
    | none => []
    | some dp => [{ file := dp.file }]
  let lifecycle : List LifecycleAttrs :=
    match t.lifecycle with
    | none => []
    | some l => [{ hook := l.hook, sidecar := l.sidecar }]
  let templates := t.templates.map (fun tpl =>
    { changeMode := tpl.changeMode
      changeSignal := tpl.changeSignal
      data := tpl.embeddedTmpl
      destination := tpl.destPath
      env := tpl.envvars
      leftDelimiter := tpl.leftDelim
      perms := tpl.perms
      rightDelimiter := tpl.rightDelim
      source := tpl.sourcePath
      splay := durationString tpl.splay
      vaultGrace := durationString tpl.vaultGrace : TemplateAttrs })
  let volumeMounts := t.volumeMounts.map (fun vm =>
    { volume := vm.volume
      destination := vm.destination
      readOnly := vm.readOnly : VolumeMountAttrs })
  { name := t.name
    config := config
    env := t.env
    meta := t.meta
    driver := t.driver
    killTimeout := durationString t.killTimeout
    killSignal := t.killSignal
    leader := t.leader
    shutdownDelay := durationString t.shutdownDelay
    user := t.user
    kind := t.kind
    artifact := artifacts
    constraint := readConstraints t.constraints
    affinity := readAffinities t.affinities
    dispatchPayload := dispatchPayload
    lifecycle := lifecycle
    logs := readLogs t.logConfig
    resources := readResources t.resources
    service := readServices t.services
    template := templates
    vault := readVault t.vault
    volumeMount := volumeMounts }

/-- readTasks from the source; total for the same reason as readServices. -/
def readTasks (tasks : List Task) : List TaskAttrs :=
  tasks.map readTask1

/-- The ephemeral_disk portion of the readGroups loop body (lines
1060-1080): the block is emitted when the prior configuration declared one
or the value differs from the (type independent) default. -/
def readEphemeralDiskBlock (cc : GroupConfig) (ed : Option EphemeralDisk) :
    List EphemeralDiskAttrs :=
  match ed with
  | none => []
  | some e =>
    let disk : EphemeralDiskAttrs := { migrate := e.migrate, size := e.sizeMB, sticky := e.sticky }
    let defaultValue : EphemeralDiskAttrs := { migrate := false, size := 300, sticky := false }
    let set := cc.ephemeralDisk
    if set.length > 0 ∨ ¬ disk = defaultValue then [disk] else []

/-- The restart portion of the readGroups loop body (lines 1082-1124): the
rendered policy is compared against the default for the declared job type;
a type outside service, batch and system is the fatal error of line 1116. -/
def readRestartBlock (jobType : String) (cc : GroupConfig)
    (rp : Option RestartPolicy) : Except String (List RestartAttrs) :=
  match rp with
  | none => .ok []
  | some r =>
    let res : RestartAttrs :=
      { attempts := r.attempts
        delay := durationString r.delay
        interval := durationString r.interval
        mode := r.mode }
    let dv : Except String RestartAttrs :=
      if jobType = "service" then
        .ok { attempts := 2, delay := "15s", interval := "30m0s", mode := "fail" }
      else if jobType = "batch" then
        .ok { attempts := 3, delay := "15s", interval := "24h0m0s", mode := "fail" }
      else if jobType = "system" then
        .ok { attempts := 2, delay := "15s", interval := "30m0s", mode := "fail" }
      else
        .error (goQuote jobType ++ " is not supported")
    match dv with
    | .error e => .error e
    | .ok defaultValue =>
      let set := cc.restart
      if set.length > 0 ∨ ¬ res = defaultValue then .ok [res] else .ok []

/-- The body of the readGroups loop for one API task group, given the prior
configuration block found at the same index. -/
def readGroup1 (d : ResourceData) (currentConfig : GroupConfig) (g : TaskGroup) :
    Except String GroupAttrs := do
  let ephemeralDisk := readEphemeralDiskBlock currentConfig g.ephemeralDisk
  let restart ← readRestartBlock d.jobType currentConfig g.restartPolicy
  let volume := g.volumes.map (fun nv =>
    { name := nv.1, typ := nv.2.typ, source := nv.2.source, readOnly := nv.2.readOnly : VolumeAttrs })
  let tasks := readTasks g.tasks
  let services := readServices g.services
  let isSet := currentConfig.reschedule.length > 0
  let reschedule ← readReschedule d isSet g.reschedulePolicy
  let isSetM := currentConfig.migrate.length > 0
  return {
      name := g.name
      meta := g.meta
      count := g.count
      constraint := readConstraints g.constraints
      affinity := readAffinities g.affinities
      spread := readSpreads g.spreads
      ephemeralDisk := ephemeralDisk
      migrate := readMigrate isSetM g.migrate
      network := readNetworks g.networks
      reschedule := reschedule
      restart := restart
      service := services
      task := tasks
      volume := volume
      shutdownDelay := g.shutdownDelay.map durationString
      stopAfterClientDisconnect := g.stopAfterClientDisconnect.map durationString }

/-- The indexed loop of readGroups: the i-th API group is paired with the
i-th prior group block by direct indexing; when the prior configuration has
fewer blocks the source indexes out of range, which is the modelled runtime
panic. -/
def readGroupsAux (d : ResourceData) (groupsConfig : List GroupConfig) :
    Nat → List TaskGroup → Except DecodeErr (List GroupAttrs)
  | _, [] => .ok []
  | i, g :: rest =>
    match groupsConfig.get? i with
    | none => .error (.indexOutOfRange "runtime error: index out of range")
    | some currentConfig =>
      match readGroup1 d currentConfig g with
      | .error m => .error (.err m)
      | .ok attrs =>
        match readGroupsAux d groupsConfig (i + 1) rest with
        | .error e => .error e
        | .ok tail => .ok (attrs :: tail)

/-- readGroups from the source (lines 1048-1184). -/
def readGroups (d : ResourceData) (groups : List TaskGroup) :
    Except DecodeErr (List GroupAttrs) :=
  readGroupsAux d d.group 0 groups

/-! ### The read lifecycle driver (resource_job_v2.go, lines 42-109) -/

/-- resourceJobV2Read, modelled over the result of the Jobs().Info call.
The returned pair is (identity after the call, outcome): a fetch error
whose text contains the transport-level 404 indicator clears the identity
and succeeds with no state written; any other fetch error is wrapped and
returned with the identity untouched; on a fetched job the readers run (in
source order: groups before update) and their errors propagate unchanged,
otherwise the decoded state is written. -/
def resourceJobV2Read (d : ResourceData) (info : Except String Job) :
    String × Except DecodeErr (Option JobAttrs) :=
  match info with
  | .error e =>
    if stringContains e "404" then ("", .ok none)
    else (d.id, .error (.err ("Failed to read the job: " ++ e)))
  | .ok job =>
    match readGroups d job.taskGroups with
    | .error e => (d.id, .error e)
    | .ok groups =>
      let parameterized : List ParameterizedAttrs :=
        match job.parameterizedJob with
        | none => []
        | some p => [{ metaOptional := p.metaOptional
                       metaRequired := p.metaRequired
                       payload := p.payload }]
      let periodic : List PeriodicAttrs :=
        match job.periodic with
        | none => []
        | some p => [{ cron := p.spec
                       prohibitOverlap := p.prohibitOverlap
                       timeZone := p.timeZone }]
      match readUpdate d job.update with
      | .error m => (d.id, .error (.err m))
      | .ok update =>
        (d.id, .ok (some
          { ns := job.ns
            priority := job.priority
            typ := job.typ
            region := job.region
            meta := job.meta
            allAtOnce := job.allAtOnce
            datacenters := job.datacenters
            name := job.name
            constraint := readConstraints job.constraints
            affinity := readAffinities job.affinities
            spread := readSpreads job.spreads
            group := groups
            parameterized := parameterized
            periodic := periodic
            update := update }))

end Nomad

namespace Nomad

/-! ### Helper lemmas -/

/-- The Go int8 conversion is the identity on the int8 range. -/
theorem int8cast_of_range (w : Int) (h1 : -128 ≤ w) (h2 : w ≤ 127) :
    int8cast w = w := by
  unfold int8cast
  omega

/-- The singleton holding the last element of a list, or the empty list for
an empty input. -/
def lastAsList {α : Type} (l : List α) : List α :=
  match l.getLast? with
  | none => []
  | some x => [x]

/-- A left fold that replaces the accumulator with the singleton of the
current element ends at the singleton of the last element (the overwrite
pattern of the dns loops of getNetworks). -/
theorem foldl_overwrite {α : Type} :
    ∀ (l : List α) (init : List α),
      l.foldl (fun _c s => [s]) init =
        (match l.getLast? with | none => init | some x => [x])
  | [], _ => rfl
  | a :: l, init => by
    cases l with
    | nil => rfl
    | cons b l' =>
      rw [List.foldl_cons, foldl_overwrite (b :: l'), List.getLast?_cons_cons]
      rcases hlast : (b :: l').getLast? with _ | x
      · exact absurd hlast (by simp)
      · rfl

/-- Specialisation of the overwrite fold to the empty initial slice. -/
theorem foldl_overwrite_nil {α : Type} (l : List α) :
    l.foldl (fun _c s => [s]) [] = lastAsList l :=
  foldl_overwrite l []

/-- lastAsList never holds more than one element. -/
theorem lastAsList_length_le_one {α : Type} (l : List α) :
    (lastAsList l).length ≤ 1 := by
  unfold lastAsList
  cases l.getLast? <;> simp

/-- Round trip of the constraint mapping, by recursion on the list; the
head case is definitional by structure eta. -/
theorem getConstraints_readConstraints :
    ∀ (cs : List Constraint), getConstraints (readConstraints cs) = cs
  | [] => rfl
  | c :: rest => congrArg (c :: ·) (getConstraints_readConstraints rest)

/-- Round trip of the affinity mapping for weights in the int8 range. -/
theorem getAffinities_readAffinities :
    ∀ (as : List Affinity), (∀ a ∈ as, -128 ≤ a.weight ∧ a.weight ≤ 127) →
      getAffinities (readAffinities as) = as
  | [], _ => rfl
  | a :: rest, h => by
    have hw := h a (by simp)
    have ih := getAffinities_readAffinities rest (fun x hx => h x (by simp [hx]))
    show NewAffinity a.lTarget a.operand a.rTarget (int8cast a.weight) ::
      getAffinities (readAffinities rest) = a :: rest
    rw [int8cast_of_range _ hw.1 hw.2, ih]
    rfl

/-! ### Claim C6 -/

/-- C6: the spread encoder builds its target list but discards it: for
every input configuration, including spread blocks with non-empty target
lists, getSpreads returns the empty result, so the encoded job carries no
spread data. -/
theorem claim_C6 (d : List SpreadConfig) : getSpreads d = [] := rfl

/-! ### Claim C1 -/

/-- C1 counterexample: the round-trip encode(decode(x)) = x fails on a
field with no default-suppression rule. For an API spread list with one
spread carrying one target, decoding with readSpreads and re-encoding with
getSpreads yields the empty list instead of the original value, because
the spread encoder discards its result. -/
theorem claim_C1_counterexample :
    getSpreads (readSpreads
        [{ attr := "node.datacenter"
           weight := 50
           spreadTarget := [{ value := "dc1", percent := 80 }] }]) ≠
      [{ attr := "node.datacenter"
         weight := 50
         spreadTarget := [{ value := "dc1", percent := 80 }] }] := by
  decide

/-- C1 amended: the round trip holds for the plain walked fields without a
default-suppression rule, witnessed here by the constraint and affinity
mappings (the affinity weight must lie in the int8 range the API type
imposes); it does not hold for the defective spread encoder path (see the
counterexample), the dns truncation of the network encoder, or the
sidecar_task decode gap. -/
theorem claim_C1 (cs : List Constraint) (as : List Affinity)
    (h : ∀ a ∈ as, -128 ≤ a.weight ∧ a.weight ≤ 127) :
    getConstraints (readConstraints cs) = cs ∧
      getAffinities (readAffinities as) = as :=
  ⟨getConstraints_readConstraints cs, getAffinities_readAffinities as h⟩

/-- C1 witness: the amended round trip evaluated at one concrete constraint
and one concrete affinity. -/
theorem claim_C1_witness :
    getConstraints (readConstraints
        [{ lTarget := "kernel.name", operand := "=", rTarget := "linux" }]) =
      [{ lTarget := "kernel.name", operand := "=", rTarget := "linux" }] ∧
    getAffinities (readAffinities
        [{ lTarget := "node.class", operand := "=", rTarget := "gpu", weight := 50 }]) =
      [{ lTarget := "node.class", operand := "=", rTarget := "gpu", weight := 50 }] :=
  claim_C1
    [{ lTarget := "kernel.name", operand := "=", rTarget := "linux" }]
    [{ lTarget := "node.class", operand := "=", rTarget := "gpu", weight := 50 }]
    (by intro a ha; rw [List.mem_singleton] at ha; rw [ha]; exact ⟨by norm_num, by norm_num⟩)

/-! ### Claim C3 -/

/-- C3: for every duration-bearing field the encoder goes through
getDuration, and: an empty input yields "not set" with no error; a parsed
duration of exactly zero yields "not set" with no error; a non-empty
unparsable string surfaces the parse error; and no result is ever a
zero-length duration. -/
theorem claim_C3 (s : String) :
    (s = "" → getDuration s = (none, none)) ∧
    (parseDuration s = (0, none) → getDuration s = (none, none)) ∧
    (∀ m, s ≠ "" → (parseDuration s).2 = some m → (getDuration s).2 = some m) ∧
    (∀ n, (getDuration s).1 = some n → n ≠ 0) := by
  by_cases hs : s = ""
  · refine ⟨fun _ => by simp [getDuration, hs], fun _ => by simp [getDuration, hs],
      fun m hne => absurd hs hne, fun n hn => ?_⟩
    simp [getDuration, hs] at hn
  · rcases hp : parseDuration s with ⟨dv, de⟩
    have hgd : getDuration s = (if dv = 0 then (none, de) else (some dv, de)) := by
      simp only [getDuration, if_neg hs, hp]
    refine ⟨fun h => absurd h hs, fun h0 => ?_, fun m _ hm => ?_, fun n hn => ?_⟩
    · simp only [Prod.mk.injEq] at h0
      obtain ⟨h1, h2⟩ := h0
      subst h1
      subst h2
      simp [hgd]
    · simp only at hm
      subst hm
      rw [hgd]
      by_cases hz : dv = 0
      · simp [hz]
      · simp [hz]
    · rw [hgd] at hn
      by_cases hz : dv = 0
      · simp [hz] at hn
      · simp [hz] at hn
        exact hn ▸ hz

/-- C3 witness: the four parts evaluated at concrete strings: the empty
string, the parsable zero "0s", the unparsable "x", and "5s" whose parsed
value five seconds is nonzero. -/
theorem claim_C3_witness :
    getDuration "" = (none, none) ∧
    getDuration "0s" = (none, none) ∧
    (getDuration "x").2 = some ("time: invalid duration " ++ goQuote "x") ∧
    (5000000000 : Int) ≠ 0 :=
  ⟨(claim_C3 "").1 rfl,
   (claim_C3 "0s").2.1 (by decide),
   (claim_C3 "x").2.2.1 ("time: invalid duration " ++ goQuote "x") (by decide) (by decide),
   (claim_C3 "5s").2.2.2 5000000000 (by decide)⟩

end Nomad

namespace Nomad

/-! ### Claim C5 -/

/-- C5: for every identity and fetch error, if the error text carries the
transport-level not-found indicator (the 404 substring), the read clears
the identity and returns success with no state written; any other fetch
error is wrapped and returned to the caller and the identity is left
unchanged. -/
theorem claim_C5 (d : ResourceData) (e : String) :
    (stringContains e "404" = true →
      resourceJobV2Read d (.error e) = ("", .ok none)) ∧
    (stringContains e "404" = false →
      resourceJobV2Read d (.error e) =
        (d.id, .error (.err ("Failed to read the job: " ++ e)))) := by
  constructor
  · intro h
    simp [resourceJobV2Read, h]
  · intro h
    simp [resourceJobV2Read, h]

/-- C5 witness: the two branches evaluated at a concrete identity, a
concrete not-found error and a concrete transport failure. -/
theorem claim_C5_witness :
    resourceJobV2Read { id := "app", jobType := "service", update := [], group := [] }
        (.error "Unexpected response code: 404 (job not found)") = ("", .ok none) ∧
    resourceJobV2Read { id := "app", jobType := "service", update := [], group := [] }
        (.error "connection refused") =
      ("app", .error (.err ("Failed to read the job: " ++ "connection refused"))) :=
  ⟨(claim_C5 _ _).1 (by decide), (claim_C5 _ _).2 (by decide)⟩

/-! ### Claim C7 -/

/-- C7 counterexample: the claim says every optional sub-block with a known
default, log config and resources included, is retained whenever the prior
configuration declared it. The log and resources readers of the source take
no prior configuration at all and suppress purely on default equality, so a
log block with the default values (max_files 10, max_file_size 10) and a
resources block with the default values (cpu 100, memory 300, no devices,
no networks) decode to nothing even when the prior configuration declared
them. -/
theorem claim_C7_counterexample :
    readLogs (some { maxFiles := 10, maxFileSizeMB := 10 }) = none ∧
    readResources (some { cpu := 100, memoryMB := 300, networks := [], devices := [] }) =
      none :=
  ⟨rfl, rfl⟩

/-- C7 amended: for the log config and resources blocks the decoder omits
the block exactly when the computed value equals the default value,
independent of the prior configuration (which these readers never see);
the declared-or-differs rule of the claim applies to the other suppressed
blocks but not to these two. -/
theorem claim_C7 (lc : LogConfig) (r : Resources) :
    (readLogs (some lc) = none ↔ lc.maxFiles = 10 ∧ lc.maxFileSizeMB = 10) ∧
    (readResources (some r) = none ↔
      r.cpu = 100 ∧ r.memoryMB = 300 ∧ r.devices = [] ∧ r.networks = []) := by
  constructor
  · have h1 : readLogs (some lc) =
        (if ({ maxFiles := lc.maxFiles, maxFileSize := lc.maxFileSizeMB } : LogsAttrs) =
            { maxFiles := 10, maxFileSize := 10 }
         then none
         else some [{ maxFiles := lc.maxFiles, maxFileSize := lc.maxFileSizeMB }]) := rfl
    rw [h1]
    by_cases hEq : ({ maxFiles := lc.maxFiles, maxFileSize := lc.maxFileSizeMB } : LogsAttrs) =
        { maxFiles := 10, maxFileSize := 10 }
    · rw [if_pos hEq]
      simp only [LogsAttrs.mk.injEq] at hEq
      simp [hEq.1, hEq.2]
    · rw [if_neg hEq]
      simp only [LogsAttrs.mk.injEq] at hEq
      simp [hEq]
  · have h2 : readResources (some r) =
        (if ({ cpu := r.cpu, memory := r.memoryMB
               device := r.devices.map (fun dev =>
                 { name := dev.name
                   count := dev.count
                   constraint := readConstraints dev.constraints
                   affinity := readAffinities dev.affinities : DeviceAttrs })
               network := readNetworks r.networks } : ResourcesAttrs) =
            { cpu := 100, memory := 300, device := [], network := [] }
         then none
         else some [{ cpu := r.cpu, memory := r.memoryMB
                      device := r.devices.map (fun dev =>
                        { name := dev.name
                          count := dev.count
                          constraint := readConstraints dev.constraints
                          affinity := readAffinities dev.affinities : DeviceAttrs })
                      network := readNetworks r.networks }]) := rfl
    rw [h2]
    by_cases hEq : ({ cpu := r.cpu, memory := r.memoryMB
                      device := r.devices.map (fun dev =>
                        { name := dev.name
                          count := dev.count
                          constraint := readConstraints dev.constraints
                          affinity := readAffinities dev.affinities : DeviceAttrs })
                      network := readNetworks r.networks } : ResourcesAttrs) =
        { cpu := 100, memory := 300, device := [], network := [] }
    · rw [if_pos hEq]
      simp only [ResourcesAttrs.mk.injEq, readNetworks] at hEq
      simp at hEq
      simp [hEq.1, hEq.2.1, hEq.2.2.1, hEq.2.2.2]
    · rw [if_neg hEq]
      simp only [ResourcesAttrs.mk.injEq, readNetworks] at hEq
      simp at hEq
      simp only [reduceCtorEq, false_iff]
      simp
      exact hEq

end Nomad

namespace Nomad

/-! ### Shared concrete fixtures -/

/-- A prior group block that declares none of the optional sub-blocks. -/
def emptyGroupConfig : GroupConfig :=
  { ephemeralDisk := []
    restart := []
    reschedule := []
    migrate := [] }

/-- A prior group block that declares a restart block carrying exactly the
service-type default values. -/
def restartGroupConfig : GroupConfig :=
  { ephemeralDisk := []
    restart := [{ attempts := 2, delay := "15s", interval := "30m0s", mode := "fail" }]
    reschedule := []
    migrate := [] }

/-- An API task group whose restart policy carries exactly the service-type
defaults: attempts 2, delay 15s, interval 30m, mode fail (durations in
nanoseconds). -/
def apiGroupServiceRestart : TaskGroup :=
  { name := "cache"
    meta := []
    count := 1
    constraints := []
    affinities := []
    spreads := []
    ephemeralDisk := none
    migrate := none
    networks := []
    reschedulePolicy := none
    restartPolicy := some
      { attempts := 2, delay := 15000000000, interval := 1800000000000, mode := "fail" }
    services := []
    tasks := []
    volumes := []
    shutdownDelay := none
    stopAfterClientDisconnect := none }

/-! ### Claim C2 -/

/-- C2: for a service job whose restart policy from the API equals
attempts 2, delay "15s", interval "30m0s", mode "fail", decoding emits no
restart block when the prior configuration had no restart block, and emits
exactly one restart block with those values when the prior configuration
declared a restart block, even with identical values. -/
theorem claim_C2 :
    (readGroups
        { id := "example", jobType := "service", update := [], group := [emptyGroupConfig] }
        [apiGroupServiceRestart]).map (fun gs => gs.map GroupAttrs.restart) =
      .ok [[]] ∧
    (readGroups
        { id := "example", jobType := "service", update := [], group := [restartGroupConfig] }
        [apiGroupServiceRestart]).map (fun gs => gs.map GroupAttrs.restart) =
      .ok [[{ attempts := 2, delay := "15s", interval := "30m0s", mode := "fail" }]] :=
  ⟨rfl, rfl⟩

/-! ### Claim C4 -/

/-- An arbitrary concrete API update strategy, used to exercise the default
computation. -/
def updateStrategyW : UpdateStrategy :=
  { maxParallel := 1
    healthCheck := ""
    canary := 0
    autoRevert := false
    autoPromote := false
    stagger := 0
    minHealthyTime := 0
    healthyDeadline := 0
    progressDeadline := 0 }

/-- An arbitrary concrete API reschedule policy, used to exercise the
default computation. -/
def reschedulePolicyW : ReschedulePolicy :=
  { attempts := 0
    interval := 0
    delay := 0
    maxDelay := 0
    delayFunction := "constant"
    unlimited := false }

/-- C4: whenever the decoder computes the type-dependent defaults (the
corresponding API block is present) for a declared job type outside
service, batch and system, it fails with the error naming the invalid
type in Go quoting, both in the update reader and in the reschedule
reader. -/
theorem claim_C4 (d : ResourceData) (u : UpdateStrategy) (r : ReschedulePolicy)
    (isSet : Bool)
    (h1 : d.jobType ≠ "service") (h2 : d.jobType ≠ "batch") (h3 : d.jobType ≠ "system") :
    readUpdate d (some u) = .error (goQuote d.jobType ++ " is not supported") ∧
    readReschedule d isSet (some r) =
      .error (goQuote d.jobType ++ " is not supported") := by
  constructor
  · simp [readUpdate, h1, h2, h3]
  · simp [readReschedule, h1, h2, h3]

/-- C4 witness: for the declared type "foo" both readers fail with the
message containing the quoted type: "foo" is not supported. -/
theorem claim_C4_witness :
    readUpdate { id := "x", jobType := "foo", update := [], group := [] }
        (some updateStrategyW) = .error "\"foo\" is not supported" ∧
    readReschedule { id := "x", jobType := "foo", update := [], group := [] } true
        (some reschedulePolicyW) = .error "\"foo\" is not supported" := by
  have h := claim_C4 { id := "x", jobType := "foo", update := [], group := [] }
    updateStrategyW reschedulePolicyW true (by decide) (by decide) (by decide)
  have hproj :
      ({ id := "x", jobType := "foo", update := [], group := [] } : ResourceData).jobType =
        "foo" := rfl
  have hq : goQuote "foo" ++ " is not supported" = "\"foo\" is not supported" := by decide
  rw [hproj, hq] at h
  exact h

end Nomad

namespace Nomad

/-! ### Claim C8 -/

/-- C8: for every service list returned by the API, every decoded service
and every decoded connect block in it carries sidecar_task nil: sidecar
task data, including its config blob, is never decoded back into
configuration state, regardless of the SidecarTask content the API
returned. -/
theorem claim_C8 (svcs : List Service) (s : ServiceAttrs) (c : ConnectAttrs)
    (hs : s ∈ readServices svcs) (hc : c ∈ s.connect) : c.sidecarTask = none := by
  rcases List.mem_map.mp hs with ⟨sv, _hmem, rfl⟩
  simp only [readService1] at hc
  rcases hcn : sv.connect with _ | cn
  · rw [hcn] at hc
    simp at hc
  · rw [hcn] at hc
    rw [List.mem_singleton] at hc
    subst hc
    rfl

/-- A concrete sidecar task as the API could return it. -/
def sidecarTaskW : SidecarTask :=
  { name := "proxy"
    driver := "docker"
    user := ""
    config := .obj [("image", .str "envoy")]
    env := []
    meta := []
    killSignal := ""
    resources := none
    logConfig := none
    killTimeout := none
    shutdownDelay := none }

/-- A concrete API service whose connect block carries a sidecar task. -/
def serviceWithSidecarTask : Service :=
  { meta := []
    name := "web"
    portLabel := "http"
    tags := []
    canaryTags := []
    enableTagOverride := false
    addressMode := ""
    taskName := ""
    checks := []
    connect := some { native := false, sidecarService := none, sidecarTask := some sidecarTaskW }
    canaryMeta := [] }

/-- C8 witness: the decoded connect block of a concrete service carrying a
sidecar task has sidecar_task nil. -/
theorem claim_C8_witness :
    ({ native := false, sidecarService := [], sidecarTask := none } : ConnectAttrs).sidecarTask =
      none :=
  claim_C8 [serviceWithSidecarTask] (readService1 serviceWithSidecarTask)
    { native := false, sidecarService := [], sidecarTask := none }
    (List.Mem.head _) (List.Mem.head _)

/-! ### Claim C9 -/

/-- C9: for every network block of the configuration that carries a dns
sub-block, the encoded network has each of the DNS servers, searches and
options lists equal to the singleton of the last configured element (or
empty when the configured list is empty), hence of length at most one:
all but the last configured entry of each list are lost. -/
theorem claim_C9 (ncs : List NetworkConfig) (nc : NetworkConfig) (db : DnsConfig)
    (hmem : nc ∈ ncs) (hdns : nc.dns = [db]) :
    ({ mode := nc.mode
       mbits := nc.mbits
       dns := some { servers := lastAsList db.servers
                     searches := lastAsList db.searches
                     options := lastAsList db.options } } : NetworkResource) ∈
      getNetworks ncs ∧
    (lastAsList db.servers).length ≤ 1 ∧
    (lastAsList db.searches).length ≤ 1 ∧
    (lastAsList db.options).length ≤ 1 := by
  refine ⟨?_, lastAsList_length_le_one _, lastAsList_length_le_one _,
    lastAsList_length_le_one _⟩
  apply List.mem_map.mpr
  refine ⟨nc, hmem, ?_⟩
  unfold getNetwork1
  rw [hdns]
  simp only [List.foldl_cons, List.foldl_nil, List.nil_append]
  rw [foldl_overwrite_nil, foldl_overwrite_nil, foldl_overwrite_nil]

/-- C9 witness: a dns block with two servers encodes to the singleton of
the second server. -/
theorem claim_C9_witness :
    ({ mode := "bridge"
       mbits := 20
       dns := some { servers := ["8.8.8.8"], searches := [], options := ["ndots:1"] } } :
      NetworkResource) ∈
      getNetworks
        [{ mode := "bridge"
           mbits := 20
           dns := [{ servers := ["1.1.1.1", "8.8.8.8"]
                     searches := []
                     options := ["ndots:1"] }] }] := by
  have h := (claim_C9
    [{ mode := "bridge"
       mbits := 20
       dns := [{ servers := ["1.1.1.1", "8.8.8.8"]
                 searches := []
                 options := ["ndots:1"] }] }]
    { mode := "bridge"
      mbits := 20
      dns := [{ servers := ["1.1.1.1", "8.8.8.8"]
                searches := []
                options := ["ndots:1"] }] }
    { servers := ["1.1.1.1", "8.8.8.8"]
      searches := []
      options := ["ndots:1"] }
    (List.Mem.head _) rfl).1
  exact h

/-! ### Claim C10 -/

/-- Success of the indexed group loop starting at index i forces the prior
configuration to hold blocks up to i plus the number of remaining API
groups. -/
theorem readGroupsAux_ok_length (d : ResourceData) (cfg : List GroupConfig) :
    ∀ (gs : List TaskGroup) (i : Nat) (v : List GroupAttrs),
      readGroupsAux d cfg i gs = .ok v → gs = [] ∨ i + gs.length ≤ cfg.length
  | [], _, _, _ => Or.inl rfl
  | g :: rest, i, v, h => by
    simp only [readGroupsAux] at h
    split at h
    next => simp at h
    next cc hget =>
      split at h
      next msg hr => simp at h
      next attrs hr =>
        split at h
        next e2 hrec => simp at h
        next tail hrec =>
          obtain ⟨hlt, -⟩ := List.get?_eq_some.mp hget
          have ih := readGroupsAux_ok_length d cfg rest (i + 1) tail hrec
          right
          simp only [List.length_cons]
          rcases ih with h0 | h0
          · subst h0
            simp only [List.length_nil] at *
            omega
          · omega

/-- When the prior configuration holds enough blocks, the indexed group
loop never reaches the out-of-range lookup. -/
theorem readGroupsAux_no_oob (d : ResourceData) (cfg : List GroupConfig) :
    ∀ (gs : List TaskGroup) (i : Nat), i + gs.length ≤ cfg.length →
      ∀ m, readGroupsAux d cfg i gs ≠ .error (.indexOutOfRange m)
  | [], i, _, m => by simp [readGroupsAux]
  | g :: rest, i, hle, m => by
    simp only [List.length_cons] at hle
    simp only [readGroupsAux]
    intro hcontra
    split at hcontra
    next hget =>
      have hnone := List.get?_eq_none.mp hget
      omega
    next cc hget =>
      split at hcontra
      next msg hr => simp at hcontra
      next attrs hr =>
        split at hcontra
        next e2 hrec =>
          simp only [Except.error.injEq] at hcontra
          rw [hcontra] at hrec
          exact readGroupsAux_no_oob d cfg rest (i + 1) (by omega) m hrec
        next tail hrec => simp at hcontra

/-- C10: decoding the task groups is well defined only when the prior
configuration holds at least as many group blocks as the API returned:
a successful decode bounds the API group count by the prior block count,
an API response with more groups than prior blocks can never decode
successfully (the positional lookup of the prior group is out of range),
and under the precondition the out-of-range outcome is unreachable. -/
theorem claim_C10 (d : ResourceData) (gs : List TaskGroup) :
    (∀ v, readGroups d gs = .ok v → gs.length ≤ d.group.length) ∧
    (d.group.length < gs.length → ∀ v, readGroups d gs ≠ .ok v) ∧
    (gs.length ≤ d.group.length →
      ∀ m, readGroups d gs ≠ .error (.indexOutOfRange m)) := by
  refine ⟨fun v h => ?_, fun hlt v hok => ?_, fun hle m => ?_⟩
  · rcases readGroupsAux_ok_length d d.group gs 0 v h with h0 | h0
    · subst h0
      simp
    · omega
  · rcases readGroupsAux_ok_length d d.group gs 0 v hok with h0 | h0
    · subst h0
      simp only [List.length_nil] at hlt
      omega
    · omega
  · exact readGroupsAux_no_oob d d.group gs 0 (by omega) m

/-- C10 witness: with two prior group blocks and one API group the
precondition holds, the decode does not hit the out-of-range lookup, and
the successful decode of the same data confirms the length bound. -/
theorem claim_C10_witness :
    readGroups
        { id := "x"
          jobType := "service"
          update := []
          group := [emptyGroupConfig, emptyGroupConfig] }
        [apiGroupServiceRestart] ≠
      .error (.indexOutOfRange "runtime error: index out of range") :=
  (claim_C10
    { id := "x"
      jobType := "service"
      update := []
      group := [emptyGroupConfig, emptyGroupConfig] }
    [apiGroupServiceRestart]).2.2 (by decide) "runtime error: index out of range"

end Nomad
